import Mathlib

/-
Shallow embedding of the appointment-confirmation bot (Python sources under
src/): the conversation state machine (src/conversation.py), the mock
appointment store (src/models/appointment.py), the realtime voice-session
handler (src/openai_handler.py) and the audio-relay loops (src/app.py).
Python strings are modelled by Lean String (inputs are ASCII), Python
datetime by an explicit record, dicts by association lists, and fallible
code by Except.
-/

/-! ## Python string primitives -/

/-- Model of `needle == hay[:len(needle)]`: list-of-chars prefix test. -/
def isPrefixC : List Char → List Char → Bool
  | [], _ => true
  | _ :: _, [] => false
  | a :: as, b :: bs => a == b && isPrefixC as bs

/-- Model of Python substring containment: `needle in hay`. -/
def hasSub (needle : List Char) : List Char → Bool
  | [] => needle.isEmpty
  | c :: rest => isPrefixC needle (c :: rest) || hasSub needle rest

/-- Python `needle in hay` on strings. -/
def pyIn (needle hay : String) : Bool := hasSub needle.toList hay.toList

/-- Python `s.lower()` on ASCII text (kernel-reducible model of
`str.lower`). -/
def String.pyLower (s : String) : String :=
  String.mk (s.toList.map Char.toLower)

/-- Python `any(word in text for word in words)`. -/
def containsAny (text : String) (words : List String) : Bool :=
  words.any fun w => pyIn w text

/-- Python `s.lstrip(\x270\x27)`: drop leading zero characters. -/
def lstrip0 (s : String) : String :=
  String.mk (s.toList.dropWhile fun c => c == '0')

/-! ## Python datetime model -/

/-- Model of Python `datetime.datetime` (year, month, day, hour, minute,
second, microsecond). -/
structure DateTime where
  year : Nat
  month : Nat
  day : Nat
  hour : Nat
  minute : Nat
  second : Nat
  micro : Nat
deriving DecidableEq, Repr

/-- Python datetime `<`: lexicographic on the components. -/
def DateTime.ltB (a b : DateTime) : Bool :=
  Nat.blt a.year b.year || (a.year == b.year &&
  (Nat.blt a.month b.month || (a.month == b.month &&
  (Nat.blt a.day b.day || (a.day == b.day &&
  (Nat.blt a.hour b.hour || (a.hour == b.hour &&
  (Nat.blt a.minute b.minute || (a.minute == b.minute &&
  (Nat.blt a.second b.second || (a.second == b.second &&
  Nat.blt a.micro b.micro)))))))))))

/-- Python datetime `<=`. -/
def DateTime.leB (a b : DateTime) : Bool := !(DateTime.ltB b a)

/-- Gregorian leap-year test, as Python `calendar.isleap` / `datetime`. -/
def isLeapYear (y : Nat) : Bool := (y % 4 == 0 && y % 100 != 0) || y % 400 == 0

/-- Days in a Gregorian month. -/
def daysInMonth (y m : Nat) : Nat :=
  if m == 2 then (if isLeapYear y then 29 else 28)
  else if m == 4 || m == 6 || m == 9 || m == 11 then 30
  else 31

/-- Advance a datetime by one calendar day (time of day unchanged). -/
def DateTime.nextDay (d : DateTime) : DateTime :=
  if d.day < daysInMonth d.year d.month then { d with day := d.day + 1 }
  else if d.month < 12 then { d with month := d.month + 1, day := 1 }
  else { d with year := d.year + 1, month := 1, day := 1 }

/-- Python `d + timedelta(days=n)`. -/
def DateTime.addDays : DateTime → Nat → DateTime
  | d, 0 => d
  | d, n + 1 => DateTime.addDays d.nextDay n

/-- Python `datetime(year, month, day, hour, minute)` with second and
microsecond 0: validates the field ranges, `none` models ValueError. -/
def datetimeNew (y mo d h mi : Nat) : Option DateTime :=
  if 1 ≤ y && y ≤ 9999 && 1 ≤ mo && mo ≤ 12 && 1 ≤ d && d ≤ daysInMonth y mo
      && h ≤ 23 && mi ≤ 59 then
    some ⟨y, mo, d, h, mi, 0, 0⟩
  else
    none

/-! ## strftime pieces used by the sources -/

def weekdayNames : List String :=
  ["Sunday", "Monday", "Tuesday", "Wednesday", "Thursday", "Friday", "Saturday"]

def monthNames : List String :=
  ["January", "February", "March", "April", "May", "June", "July",
   "August", "September", "October", "November", "December"]

def sakamotoTable : List Nat := [0, 3, 2, 5, 0, 3, 5, 1, 4, 6, 2, 4]

/-- Day of week of a Gregorian date, 0 = Sunday (Sakamoto's method). -/
def dayOfWeek (y m d : Nat) : Nat :=
  let y' := if m < 3 then y - 1 else y
  (y' + y' / 4 + y' / 400 + sakamotoTable.getD (m - 1) 0 + d - y' / 100) % 7

/-- strftime `%A`. -/
def weekdayName (dt : DateTime) : String :=
  weekdayNames.getD (dayOfWeek dt.year dt.month dt.day) "Sunday"

/-- strftime `%B`. -/
def monthName (dt : DateTime) : String := monthNames.getD (dt.month - 1) ""

/-- Zero-padded two-digit decimal (strftime `%d`, `%m`, `%M`, `%I` ...). -/
def pad2 (n : Nat) : String := if n < 10 then "0" ++ toString n else toString n

/-- Zero-padded four-digit decimal (isoformat year). -/
def pad4 (n : Nat) : String :=
  if n < 10 then "000" ++ toString n
  else if n < 100 then "00" ++ toString n
  else if n < 1000 then "0" ++ toString n
  else toString n

/-- Zero-padded six-digit decimal (isoformat microseconds). -/
def pad6 (n : Nat) : String :=
  if n < 10 then "00000" ++ toString n
  else if n < 100 then "0000" ++ toString n
  else if n < 1000 then "000" ++ toString n
  else if n < 10000 then "00" ++ toString n
  else if n < 100000 then "0" ++ toString n
  else toString n

/-- 12-hour clock value of an hour (strftime `%I`, without padding). -/
def hour12 (h : Nat) : Nat := if h % 12 == 0 then 12 else h % 12

/-- strftime `%p`. -/
def ampm (h : Nat) : String := if h < 12 then "AM" else "PM"

/-- strftime `"%A, %B %d"` as used for slot descriptions. -/
def strftimeDayFull (dt : DateTime) : String :=
  weekdayName dt ++ ", " ++ monthName dt ++ " " ++ pad2 dt.day

/-- strftime `"%I:%M %p"` as used for slot descriptions. -/
def strftimeTime (dt : DateTime) : String :=
  pad2 (hour12 dt.hour) ++ ":" ++ pad2 dt.minute ++ " " ++ ampm dt.hour

/-- Python `datetime.isoformat()`. -/
def DateTime.isoformat (dt : DateTime) : String :=
  pad4 dt.year ++ "-" ++ pad2 dt.month ++ "-" ++ pad2 dt.day ++ "T" ++
  pad2 dt.hour ++ ":" ++ pad2 dt.minute ++ ":" ++ pad2 dt.second ++
  (if dt.micro == 0 then "" else "." ++ pad6 dt.micro)

/-! ## Python dict model (string keys, insertion order preserved) -/

/-- Python `m.get(key)` / `m[key]` presence: first entry with the key. -/
def dictFind {α : Type} : List (String × α) → String → Option α
  | [], _ => none
  | (k, v) :: rest, key => if k == key then some v else dictFind rest key

/-- In-place update `m[key].field = ...`: replace the entry at the key,
leaving order and all other entries unchanged. -/
def dictSet {α : Type} : List (String × α) → String → α → List (String × α)
  | [], _, _ => []
  | (k, v) :: rest, key, newV =>
      if k == key then (k, newV) :: rest else (k, v) :: dictSet rest key newV

/-- Python `d.get(key, default)` for string-valued dicts. -/
def pyGet (d : List (String × String)) (key dflt : String) : String :=
  (dictFind d key).getD dflt

instance exceptDecEq {ε α : Type} [DecidableEq ε] [DecidableEq α] :
    DecidableEq (Except ε α) := fun a b =>
  match a, b with
  | .ok x, .ok y =>
      match decEq x y with
      | isTrue h => isTrue (by rw [h])
      | isFalse h => isFalse fun hh => h (Except.ok.inj hh)
  | .error x, .error y =>
      match decEq x y with
      | isTrue h => isTrue (by rw [h])
      | isFalse h => isFalse fun hh => h (Except.error.inj hh)
  | .ok _, .error _ => isFalse fun hh => Except.noConfusion hh
  | .error _, .ok _ => isFalse fun hh => Except.noConfusion hh

/-! ## src/models/appointment.py -/

/-- The `Appointment` pydantic model. -/
structure Appointment where
  id : String
  patient_id : String
  doctor : String
  datetime : DateTime
  duration : Nat
  status : String
  notes : Option String
deriving DecidableEq, Repr

/-- The mock `AppointmentDB`: the `appointments` dict keyed by id, and the
`available_slots` list in stored order. -/
structure AppointmentDB where
  appointments : List (String × Appointment)
  available_slots : List DateTime
deriving DecidableEq, Repr

/-- Embedding of `AppointmentDB.reschedule_appointment`: when the id is present, set the
entry's datetime and status in place and return it; otherwise return None
and leave the store untouched. Returns the Python return value together
with the post-state of the store. -/
def AppointmentDB.reschedule_appointment (db : AppointmentDB)
    (appointment_id : String) (new_datetime : DateTime) :
    Option Appointment × AppointmentDB :=
  match dictFind db.appointments appointment_id with
  | some a =>
      let a2 := { a with datetime := new_datetime, status := "rescheduled" }
      (some a2, { db with appointments := dictSet db.appointments appointment_id a2 })
  | none => (none, db)

/-- Embedding of `AppointmentDB.get_available_slots`: slots with
`start_date <= slot <= end_date`, in stored order. -/
def AppointmentDB.get_available_slots (db : AppointmentDB)
    (start_date end_date : DateTime) : List DateTime :=
  db.available_slots.filter fun slot =>
    DateTime.leB start_date slot && DateTime.leB slot end_date

/-! ## src/conversation.py : ConversationManager -/

/-- Mutable state of a `ConversationManager` (its `db`, and the fields set
in `__init__`). `current_appointment` is the appointment-details dict or
Python None. -/
structure ConversationManager where
  db : AppointmentDB
  current_appointment : Option (List (String × String))
  conversation_state : String
  proposed_times : List DateTime
  selected_time : Option DateTime
deriving DecidableEq, Repr

/-- The dict returned by `process_user_response`: `intent` and `response`
always present, `available_slots` and `new_datetime` only on the branches
that add them. -/
structure Reply where
  intent : String
  response : String
  available_slots : Option (List String)
  new_datetime : Option String
deriving DecidableEq, Repr

def confirmWords : List String :=
  ["yes", "confirm", "good", "fine", "okay", "sure", "correct"]

def rescheduleWords : List String :=
  ["no", "reschedule", "change", "different", "can\x27t make", "unable"]

def questionWords : List String := ["question", "ask", "wonder", "curious"]

def completedHelpWords : List String := ["yes", "question", "help"]

/-- Description of one offered slot:
`f"{slot.strftime(\x27%A, %B %d\x27)} at {slot.strftime(\x27%I:%M %p\x27)}"`. -/
def slotText (slot : DateTime) : String :=
  strftimeDayFull slot ++ " at " ++ strftimeTime slot

/-- Embeds `", ".join(slot_texts[:-1]) + " or " + slot_texts[-1] if
len(slot_texts) > 1 else slot_texts[0]`; `none` models the IndexError the
trailing `slot_texts[0]` raises on an empty list. -/
def slotsJoin (ts : List String) : Option String :=
  if ts.length > 1 then
    some (String.intercalate ", " ts.dropLast ++ " or " ++ ts.getLastD "")
  else
    match ts with
    | [] => none
    | t :: _ => some t

/-- The ordinal checks of the rescheduling branch, in source order. -/
def ordinalIndex (text : String) : Option Nat :=
  if pyIn "first" text || pyIn "1st" text || pyIn "option 1" text
      || pyIn "option one" text then some 0
  else if pyIn "second" text || pyIn "2nd" text || pyIn "option 2" text
      || pyIn "option two" text then some 1
  else if pyIn "third" text || pyIn "3rd" text || pyIn "option 3" text
      || pyIn "option three" text then some 2
  else none

/-- One slot's date/time-mention test: day name, `%B %d` date, `%I:%M`
time, or `f"{hour} {ampm}"` with the hour stripped of leading zeros, all
lowercased, occurring in the (lowercased) input. -/
def slotMatches (slot : DateTime) (text : String) : Bool :=
  pyIn (weekdayName slot).pyLower text
  || pyIn (monthName slot ++ " " ++ pad2 slot.day).pyLower text
  || pyIn (pad2 (hour12 slot.hour) ++ ":" ++ pad2 slot.minute).pyLower text
  || pyIn (lstrip0 (pad2 (hour12 slot.hour)).pyLower ++ " "
            ++ (ampm slot.hour).pyLower) text

/-- The `for i, slot in enumerate(...)` scan: index of the first slot whose
date/time is mentioned. -/
def findSlotMatchAux (text : String) : Nat → List DateTime → Option Nat
  | _, [] => none
  | i, s :: rest =>
      if slotMatches s text then some i else findSlotMatchAux text (i + 1) rest

def findSlotMatch (slots : List DateTime) (text : String) : Option Nat :=
  findSlotMatchAux text 0 slots

def unclearTimeReply : Reply :=
  ⟨"unclear_time",
   "I\x27m sorry, I couldn\x27t determine which time you prefer. Could you please specify which of the offered times works best for you?",
   none, none⟩

/-- Embedding of `ConversationManager.process_user_response`: the post-state of
the manager (mutations survive an exception, as in Python) together with
the returned dict, or the exception the call raises. `now` stands for the
`datetime.now()` the body reads. -/
def process_user_response (cm : ConversationManager) (now : DateTime)
    (text0 : String) : ConversationManager × Except String Reply :=
  let text := text0.pyLower
  if cm.conversation_state == "initial" then
    if containsAny text confirmWords then
      ({ cm with conversation_state := "confirming" },
       .ok ⟨"confirm",
            "Great! I\x27ll mark your appointment as confirmed. Is there anything else you need to know about your appointment?",
            none, none⟩)
    else if containsAny text rescheduleWords then
      let available_slots :=
        cm.db.get_available_slots now (now.addDays 7)
      let cm2 := { cm with conversation_state := "rescheduling",
                           proposed_times := available_slots }
      let slot_texts := (available_slots.take 3).map slotText
      match slotsJoin slot_texts with
      | none => (cm2, .error "IndexError: list index out of range")
      | some slots_text =>
          (cm2,
           .ok ⟨"reschedule",
                "I understand you\x27d like to reschedule. We have availability on "
                  ++ slots_text ++ ". Would any of these times work for you?",
                some slot_texts, none⟩)
    else
      (cm,
       .ok ⟨"unclear",
            "I\x27m not sure if you want to confirm or reschedule your appointment. Can you please let me know if you\x27d like to keep your appointment or reschedule it?",
            none, none⟩)
  else if cm.conversation_state == "confirming" then
    if containsAny text questionWords then
      (cm,
       .ok ⟨"question",
            "I\x27d be happy to help with any questions, but I don\x27t have access to specific medical information. For medical questions, please speak with your doctor during your appointment. Is there anything else I can assist with regarding your appointment scheduling?",
            none, none⟩)
    else
      let cm1 := { cm with conversation_state := "completed" }
      match cm1.current_appointment with
      | none =>
          (cm1, .error "AttributeError: \x27NoneType\x27 object has no attribute \x27get\x27")
      | some appt =>
          (cm1,
           .ok ⟨"complete",
                "Thank you for confirming your appointment. We look forward to seeing you on "
                  ++ pyGet appt "date" "your scheduled date" ++ " at "
                  ++ pyGet appt "time" "your scheduled time"
                  ++ ". Have a great day!",
                none, none⟩)
  else if cm.conversation_state == "rescheduling" then
    let selected_index :=
      match ordinalIndex text with
      | some i => some i
      | none => findSlotMatch (cm.proposed_times.take 3) text
    match selected_index with
    | some i =>
        match cm.proposed_times[i]? with
        | some sel =>
            let cm1 := { cm with selected_time := some sel,
                                 conversation_state := "completed" }
            let cm2 :=
              match cm1.current_appointment with
              | some appt =>
                  match dictFind appt "appointment_id" with
                  | some aid =>
                      { cm1 with db := (cm1.db.reschedule_appointment aid sel).2 }
                  | none => cm1
              | none => cm1
            (cm2,
             .ok ⟨"reschedule_confirmed",
                  "Great! I\x27ve rescheduled your appointment to "
                    ++ strftimeDayFull sel ++ " at " ++ strftimeTime sel
                    ++ ". You\x27ll receive a confirmation message shortly. Is there anything else you need help with?",
                  none, some sel.isoformat⟩)
        | none => (cm, .ok unclearTimeReply)
    | none => (cm, .ok unclearTimeReply)
  else if cm.conversation_state == "completed" then
    if containsAny text completedHelpWords then
      (cm,
       .ok ⟨"additional_help",
            "For any other questions or concerns, please contact the office directly. Is there anything specific about your appointment that you\x27d like me to address?",
            none, none⟩)
    else
      (cm, .ok ⟨"goodbye", "Thank you for your time. Have a wonderful day!", none, none⟩)
  else
    (cm,
     .ok ⟨"unknown",
          "I\x27m not sure how to respond to that. Can you please clarify if you want to confirm or reschedule your appointment?",
          none, none⟩)

/-- The dict returned by `get_conversation_outcome`; optional fields model
the keys present only in some branches (`appointment` and
`original_appointment` hold `self.current_appointment`, itself possibly
None). -/
structure OutcomeInfo where
  outcome : String
  original_appointment : Option (Option (List (String × String)))
  appointment : Option (Option (List (String × String)))
  new_datetime : Option String
  state : Option String
deriving DecidableEq, Repr

/-- Embedding of `ConversationManager.get_conversation_outcome`. A Python datetime is
always truthy, so `if self.selected_time:` is an is-not-None test. -/
def get_conversation_outcome (cm : ConversationManager) : OutcomeInfo :=
  if cm.conversation_state == "completed" then
    match cm.selected_time with
    | some t =>
        ⟨"rescheduled", some cm.current_appointment, none, some t.isoformat, none⟩
    | none =>
        ⟨"confirmed", none, some cm.current_appointment, none, none⟩
  else
    ⟨"incomplete", none, none, none, some cm.conversation_state⟩

/-! ## src/conversation.py : extract_date_time

The two `re.search` calls are embedded as leftmost scanners. Neither
pattern needs backtracking on success: in
`(jan|...)[a-z]* (\d+)(st|nd|rd|th)?` the greedy `[a-z]*` is followed by a
space, which no backtracked letter can satisfy, and in
`(\d+)(?::(\d+))?\s*(am|pm)` every character a greedy group gives back
fails the next mandatory atom, so maximal-munch matching at each start
position is equivalent to Python's search. -/

def monthAbbrevs : List (String × Nat) :=
  [("jan", 1), ("feb", 2), ("mar", 3), ("apr", 4), ("may", 5), ("jun", 6),
   ("jul", 7), ("aug", 8), ("sep", 9), ("oct", 10), ("nov", 11), ("dec", 12)]

def isDigitC (c : Char) : Bool := '0' ≤ c && c ≤ '9'

def isLowerAlphaC (c : Char) : Bool := 'a' ≤ c && c ≤ 'z'

/-- Python `\s`. -/
def pyIsSpace (c : Char) : Bool :=
  c == ' ' || c == '\t' || c == '\n' || c == '\x0d' || c == '\x0b' || c == '\x0c'

/-- Numeric value of a digit run (Python `int` of the matched group). -/
def natOfDigits (ds : List Char) : Nat :=
  ds.foldl (fun acc c => acc * 10 + (c.toNat - '0'.toNat)) 0

/-- Match `(jan|...)[a-z]* (\d+)(st|nd|rd|th)?` anchored at the head:
month-abbreviation group and day group. -/
def dateMatchAt (cs : List Char) : Option (String × Nat) := do
  let (ab, _) ← monthAbbrevs.find? fun p => isPrefixC p.1.toList cs
  let rest := (cs.drop 3).dropWhile isLowerAlphaC
  match rest with
  | ' ' :: r =>
      let digits := r.takeWhile isDigitC
      if digits.isEmpty then none else some (ab, natOfDigits digits)
  | _ => none

/-- Leftmost search for the date pattern. -/
def dateSearch : List Char → Option (String × Nat)
  | [] => none
  | c :: rest =>
      match dateMatchAt (c :: rest) with
      | some m => some m
      | none => dateSearch rest

/-- Match `(\d+)(?::(\d+))?\s*(am|pm)` anchored at the head: hour group,
optional minute group, am/pm group. -/
def timeMatchAt (cs : List Char) : Option (Nat × Option Nat × String) :=
  let digits := cs.takeWhile isDigitC
  if digits.isEmpty then none
  else
    let r := cs.drop digits.length
    let (minuteG, r2) :=
      match r with
      | ':' :: r' =>
          let ds := r'.takeWhile isDigitC
          if ds.isEmpty then (none, r) else (some (natOfDigits ds), r'.drop ds.length)
      | _ => (none, r)
    let r3 := r2.dropWhile pyIsSpace
    if isPrefixC "am".toList r3 then some (natOfDigits digits, minuteG, "am")
    else if isPrefixC "pm".toList r3 then some (natOfDigits digits, minuteG, "pm")
    else none

/-- Leftmost search for the time pattern. -/
def timeSearch : List Char → Option (Nat × Option Nat × String)
  | [] => none
  | c :: rest =>
      match timeMatchAt (c :: rest) with
      | some m => some m
      | none => timeSearch rest

/-- The `month_map.get(month_str[:3], now.month)` lookup. -/
def monthMap (s : String) (dflt : Nat) : Nat :=
  ((monthAbbrevs.find? fun p => p.1 == s).map Prod.snd).getD dflt

/-- The (month, day, hour, minute) the body assembles from the two
matches, or `none` when neither pattern is found. -/
def extractComponents (now : DateTime) (cs : List Char) :
    Option (Nat × Nat × Nat × Nat) :=
  let date_match := dateSearch cs
  let time_match := timeSearch cs
  if date_match.isNone && time_match.isNone then none
  else
    let (month, day) :=
      match date_match with
      | some (mstr, d) => (monthMap mstr now.month, d)
      | none => (now.month, now.day)
    let (hour, minute) :=
      match time_match with
      | some (h, mi, ap) =>
          let mi := mi.getD 0
          let h :=
            if ap == "pm" && h < 12 then h + 12
            else if ap == "am" && h == 12 then 0
            else h
          (h, mi)
      | none => (9, 0)
    some (month, day, hour, minute)

/-- The `try` block: build the datetime, and when it is in the past AND the
(month, day) pair is before today's, rebuild it one year later; a
ValueError from either constructor yields None. -/
def assembleRoll (now : DateTime) (mo d h mi : Nat) : Option DateTime :=
  match datetimeNew now.year mo d h mi with
  | none => none
  | some dt =>
      if dt.ltB now then
        if mo < now.month || (mo == now.month && d < now.day) then
          datetimeNew (now.year + 1) mo d h mi
        else some dt
      else some dt

/-- Embedding of `ConversationManager.extract_date_time` (`now` stands for the
`datetime.now()` the body reads). -/
def extract_date_time (now : DateTime) (text : String) : Option DateTime :=
  match extractComponents now text.pyLower.toList with
  | none => none
  | some (mo, d, h, mi) => assembleRoll now mo d h mi

/-! ## src/openai_handler.py : OpenAIRealtimeHandler -/

/-- What one `openai_ws.recv()` inside the confirmation poll of
`initialize_session` yields: a timeout, a `session.created` event, an
`error` event, or any other event. -/
inductive RecvEvent
  | timeout
  | sessionCreated
  | errorEvent (msg : String)
  | otherEvent
deriving DecidableEq, Repr

/-- The `for _ in range(5)` confirmation poll of `initialize_session`:
`session.created` returns, an `error` event raises, a timeout or any other
event consumes the attempt; falling out of the loop only logs and returns
normally. Missing list elements behave as timeouts. -/
def sessionPollLoop : Nat → List RecvEvent → Except String Unit
  | 0, _ => .ok ()
  | _ + 1, [] => .ok ()
  | n + 1, e :: rest =>
      match e with
      | .timeout => sessionPollLoop n rest
      | .sessionCreated => .ok ()
      | .errorEvent m => .error ("OpenAI error: " ++ m)
      | .otherEvent => sessionPollLoop n rest

/-- Observable completion of `initialize_session` as a function of the
events its confirmation poll receives: `.error` means the call raises to
its caller, `.ok` means it returns normally. -/
def initialize_session (events : List RecvEvent) : Except String Unit :=
  sessionPollLoop 5 events

/-- Handler state mutated by message processing: the transcript (role,
content) and `call_outcome`. -/
structure HandlerState where
  conversation_transcript : List (String × String)
  call_outcome : Option String
deriving DecidableEq, Repr

def confirmPhrases : List String :=
  ["confirm", "confirmed", "appointment is confirmed",
   "appointment is set", "see you on", "look forward to seeing you",
   "thank you for confirming", "glad you can make it"]

def reschedulePhrases : List String :=
  ["reschedule", "rescheduled", "new appointment",
   "different time", "another time", "alternative time",
   "moved your appointment", "changed your appointment"]

/-- Embedding of `process_openai_message` on a `response.content.delta` event carrying
`content`: append an assistant turn and run keyword detection over the
lowercased fragment (empty content is falsy and skipped). -/
def processContentDelta (st : HandlerState) (content : String) : HandlerState :=
  if content == "" then st
  else
    let st := { st with conversation_transcript :=
                  st.conversation_transcript ++ [("assistant", content)] }
    let lower_content := content.pyLower
    if containsAny lower_content confirmPhrases then
      { st with call_outcome := some "confirmed" }
    else if containsAny lower_content reschedulePhrases then
      { st with call_outcome := some "rescheduled" }
    else st

/-- The transcript-mark branch of `receive_from_twilio` (src/app.py):
append a user turn and run the word lists over the lowercased transcript
(empty transcript is falsy and skipped). -/
def processUserTranscript (st : HandlerState) (transcript : String) : HandlerState :=
  if transcript == "" then st
  else
    let st := { st with conversation_transcript :=
                  st.conversation_transcript ++ [("user", transcript)] }
    let lower_transcript := transcript.pyLower
    if containsAny lower_transcript confirmWords then
      { st with call_outcome := some "confirmed" }
    else if containsAny lower_transcript rescheduleWords then
      { st with call_outcome := some "rescheduled" }
    else st

/-- The two kinds of text-bearing events that drive outcome detection. -/
inductive CallSignal
  | assistantDelta (content : String)
  | userMark (transcript : String)
deriving DecidableEq, Repr

def stepSignal (st : HandlerState) : CallSignal → HandlerState
  | .assistantDelta c => processContentDelta st c
  | .userMark t => processUserTranscript st t

def runSignals (st : HandlerState) (sigs : List CallSignal) : HandlerState :=
  sigs.foldl stepSignal st

/-- The outcome value a single event writes, if any (a function of that
event's own text only). -/
def impliedOutcome : CallSignal → Option String
  | .assistantDelta c =>
      if c == "" then none
      else if containsAny c.pyLower confirmPhrases then some "confirmed"
      else if containsAny c.pyLower reschedulePhrases then some "rescheduled"
      else none
  | .userMark t =>
      if t == "" then none
      else if containsAny t.pyLower confirmWords then some "confirmed"
      else if containsAny t.pyLower rescheduleWords then some "rescheduled"
      else none

/-! ## src/app.py : process_audio_streams relay loops

Each direction is a fold over the frames that arrive on its own
connection. The `try` in each loop wraps the whole `async for`, so an
exception thrown while handling one frame is caught outside the loop and
ends that direction; only the audio re-encode in `send_to_twilio` sits in
an inner per-frame `try`. -/

/-- One frame from the telephony socket, as `receive_from_twilio` sees it.
`malformed` stands for a frame whose JSON parse or `data[\x27event\x27]`
access raises. -/
inductive TwilioFrame
  | malformed
  | media (payload : String)
  | markTranscript (value : String)
  | markOther
  | stop
  | otherEvent
deriving DecidableEq, Repr

/-- The `receive_from_twilio` loop: fold over incoming frames. Returns the final
handler state, the `input_audio_buffer.append` payloads forwarded to the
model connection (in order), and whether the loop ended by an exception
caught at loop level (true) rather than by `stop` or end of stream. -/
def receive_from_twilio (st : HandlerState) (openaiOpen : Bool) :
    List TwilioFrame → HandlerState × List String × Bool
  | [] => (st, [], false)
  | f :: rest =>
      match f with
      | .malformed => (st, [], true)
      | .media payload =>
          if openaiOpen then
            let (st', outs, aborted) := receive_from_twilio st openaiOpen rest
            (st', payload :: outs, aborted)
          else receive_from_twilio st openaiOpen rest
      | .markTranscript v =>
          receive_from_twilio (processUserTranscript st v) openaiOpen rest
      | .markOther => receive_from_twilio st openaiOpen rest
      | .stop => (st, [], false)
      | .otherEvent => receive_from_twilio st openaiOpen rest

/-- One message from the model connection, as `send_to_twilio` sees it.
`malformed` stands for a message whose JSON parse or `response[\x27type\x27]`
access raises; an audio delta carries a payload that either re-encodes
(`.ok`) or raises in the inner per-frame `try` (`.error`). -/
inductive OpenAIMsg
  | malformed
  | audioDelta (payload : Except Unit String)
  | contentDelta (content : String)
  | errorEvent
  | otherType
deriving Repr

/-- The `send_to_twilio` loop: fold over incoming model messages. Returns the final
handler state, the media payloads sent back to the telephony socket (in
order), and whether the loop ended by an exception caught at loop level. -/
def send_to_twilio (st : HandlerState) :
    List OpenAIMsg → HandlerState × List String × Bool
  | [] => (st, [], false)
  | m :: rest =>
      match m with
      | .malformed => (st, [], true)
      | .audioDelta (.error _) => send_to_twilio st rest
      | .audioDelta (.ok payload) =>
          let (st', outs, aborted) := send_to_twilio st rest
          (st', payload :: outs, aborted)
      | .contentDelta c => send_to_twilio (processContentDelta st c) rest
      | .errorEvent => send_to_twilio st rest
      | .otherType => send_to_twilio st rest

/-- Embedding of `process_audio_streams`: runs the two loops concurrently via
`asyncio.gather`; each loop is a function of its own direction's frames
alone, so the joint observable behaviour is the pair. -/
def process_audio_streams (st : HandlerState) (openaiOpen : Bool)
    (twilioFrames : List TwilioFrame) (openaiMsgs : List OpenAIMsg) :
    (HandlerState × List String × Bool) × (HandlerState × List String × Bool) :=
  (receive_from_twilio st openaiOpen twilioFrames, send_to_twilio st openaiMsgs)

/-! ## Sample data for concrete evaluations -/

def sampleNow : DateTime := ⟨2026, 10, 12, 9, 0, 0, 0⟩

def sampleSlot1 : DateTime := ⟨2026, 10, 15, 9, 0, 0, 0⟩

def sampleSlot2 : DateTime := ⟨2026, 10, 15, 14, 0, 0, 0⟩

def sampleAppt : Appointment :=
  ⟨"A001", "P001", "Dr. Smith", ⟨2026, 10, 13, 11, 0, 0, 0⟩, 30, "scheduled", none⟩

def sampleDb : AppointmentDB := ⟨[("A001", sampleAppt)], [sampleSlot1, sampleSlot2]⟩

def emptyDb : AppointmentDB := ⟨[], []⟩

/-- A manager mid-reschedule with two proposed slots, for concrete
evaluations. -/
def cmResched : ConversationManager :=
  ⟨emptyDb, none, "rescheduling", [sampleSlot1, sampleSlot2], none⟩

/-- A forward step of the conversation phase: stay put, or one of the
edges initial → confirming, initial → rescheduling,
confirming → completed, rescheduling → completed. -/
def phaseStepOK (old new : String) : Prop :=
  new = old
  ∨ (old = "initial" ∧ (new = "confirming" ∨ new = "rescheduling"))
  ∨ ((old = "confirming" ∨ old = "rescheduling") ∧ new = "completed")

/-! ## Theorems -/

theorem dictFind_dictSet_self {α : Type} (m : List (String × α)) (k : String)
    (v a : α) (h : dictFind m k = some a) :
    dictFind (dictSet m k v) k = some v := by
  induction m with
  | nil => simp [dictFind] at h
  | cons p rest ih =>
      obtain ⟨k', v'⟩ := p
      by_cases hk : (k' == k) = true
      · simp [dictFind, dictSet, hk]
      · simp only [dictFind, dictSet, hk] at h ⊢
        simp only [Bool.false_eq_true, if_false] at h ⊢
        exact ih h

theorem dictFind_dictSet_ne {α : Type} (m : List (String × α)) (k k' : String)
    (v : α) (h : k' ≠ k) :
    dictFind (dictSet m k v) k' = dictFind m k' := by
  induction m with
  | nil => simp [dictFind, dictSet]
  | cons p rest ih =>
      obtain ⟨a, b⟩ := p
      by_cases hak : (a == k) = true
      · have ha : a = k := by simpa using hak
        have : (a == k') = false := by
          simp [ha]
          exact fun hkk => h hkk.symm
        simp [dictFind, dictSet, hak, this]
      · simp only [dictSet, hak, Bool.false_eq_true, if_false]
        by_cases hak' : (a == k') = true
        · simp [dictFind, hak']
        · simp [dictFind, hak', ih]

theorem dictSet_of_find_none {α : Type} (m : List (String × α)) (k : String)
    (v : α) (h : dictFind m k = none) : dictSet m k v = m := by
  induction m with
  | nil => simp [dictSet]
  | cons p rest ih =>
      obtain ⟨a, b⟩ := p
      by_cases hak : (a == k) = true
      · simp [dictFind, hak] at h
      · simp only [dictFind, hak, Bool.false_eq_true, if_false] at h
        simp [dictSet, hak, ih h]

/-- C1: every call to `process_user_response` either keeps the phase or
moves it along one of the forward edges initial → confirming|rescheduling,
confirming|rescheduling → completed; it never moves it backward (so along
any sequence of processed utterances the phase only advances), including
on the paths that raise. -/
theorem C1_phase_only_moves_forward (cm : ConversationManager)
    (now : DateTime) (text : String) :
    phaseStepOK cm.conversation_state
      (process_user_response cm now text).1.conversation_state := by
  unfold process_user_response
  dsimp only
  repeat' split
  all_goals simp_all [phaseStepOK]

/-- C2: `get_conversation_outcome` reports `rescheduled` with the selected
slot's isoformat datetime when the phase is completed and a slot was
selected, `confirmed` when completed with no selected slot, and
`incomplete` with the current phase otherwise. -/
theorem C2_outcome_mapping (cm : ConversationManager) :
    (∀ t, cm.conversation_state = "completed" → cm.selected_time = some t →
        get_conversation_outcome cm =
          ⟨"rescheduled", some cm.current_appointment, none, some t.isoformat, none⟩)
    ∧ (cm.conversation_state = "completed" → cm.selected_time = none →
        get_conversation_outcome cm =
          ⟨"confirmed", none, some cm.current_appointment, none, none⟩)
    ∧ (cm.conversation_state ≠ "completed" →
        get_conversation_outcome cm =
          ⟨"incomplete", none, none, none, some cm.conversation_state⟩) := by
  refine ⟨fun t h1 h2 => ?_, fun h1 h2 => ?_, fun h1 => ?_⟩ <;>
    simp [get_conversation_outcome, h1, *]

/-- C2 witness: the three cases of the mapping, each evaluated on a
concrete manager state. -/
theorem C2_outcome_mapping_witness :
    get_conversation_outcome ⟨sampleDb, none, "completed", [], some sampleSlot2⟩ =
      ⟨"rescheduled", some none, none, some "2026-10-15T14:00:00", none⟩
    ∧ get_conversation_outcome ⟨sampleDb, none, "completed", [], none⟩ =
      ⟨"confirmed", none, some none, none, none⟩
    ∧ get_conversation_outcome ⟨sampleDb, none, "rescheduling", [], none⟩ =
      ⟨"incomplete", none, none, none, some "rescheduling"⟩ := by
  refine ⟨?_, ?_, ?_⟩
  · have h := (C2_outcome_mapping ⟨sampleDb, none, "completed", [], some sampleSlot2⟩).1
      sampleSlot2 rfl rfl
    rw [h]
    decide
  · exact (C2_outcome_mapping ⟨sampleDb, none, "completed", [], none⟩).2.1 rfl rfl
  · have h := (C2_outcome_mapping ⟨sampleDb, none, "rescheduling", [], none⟩).2.2
      (by decide)
    rw [h]

/-- C10: `reschedule_appointment` with a present id changes only the
target's datetime and status (all other fields of the target, every other
entry of the store, and the available-slot list are unchanged) and returns
the updated appointment; with an absent id it returns None and leaves the
store entirely unchanged. -/
theorem C10_reschedule_frame_effect (db : AppointmentDB) (aid : String)
    (nd : DateTime) :
    (∀ a, dictFind db.appointments aid = some a →
        (db.reschedule_appointment aid nd).1 =
            some { a with datetime := nd, status := "rescheduled" }
        ∧ dictFind (db.reschedule_appointment aid nd).2.appointments aid =
            some { a with datetime := nd, status := "rescheduled" }
        ∧ ({ a with datetime := nd, status := "rescheduled" } : Appointment).id = a.id
        ∧ ({ a with datetime := nd, status := "rescheduled" } : Appointment).patient_id
            = a.patient_id
        ∧ ({ a with datetime := nd, status := "rescheduled" } : Appointment).doctor
            = a.doctor
        ∧ ({ a with datetime := nd, status := "rescheduled" } : Appointment).duration
            = a.duration
        ∧ ({ a with datetime := nd, status := "rescheduled" } : Appointment).notes
            = a.notes
        ∧ (∀ k, k ≠ aid →
            dictFind (db.reschedule_appointment aid nd).2.appointments k =
              dictFind db.appointments k)
        ∧ (db.reschedule_appointment aid nd).2.available_slots = db.available_slots)
    ∧ (dictFind db.appointments aid = none →
        db.reschedule_appointment aid nd = (none, db)) := by
  constructor
  · intro a ha
    refine ⟨?_, ?_, rfl, rfl, rfl, rfl, rfl, ?_, ?_⟩
    · simp [AppointmentDB.reschedule_appointment, ha]
    · simp only [AppointmentDB.reschedule_appointment, ha]
      exact dictFind_dictSet_self _ _ _ _ ha
    · intro k hk
      simp only [AppointmentDB.reschedule_appointment, ha]
      exact dictFind_dictSet_ne _ _ _ _ hk
    · simp [AppointmentDB.reschedule_appointment, ha]
  · intro ha
    simp [AppointmentDB.reschedule_appointment, ha]

/-- C10 witness: rescheduling the present id "A001" updates it and leaves
the rest alone; rescheduling the absent id "Z9" is a no-op returning
None. -/
theorem C10_reschedule_frame_effect_witness :
    (sampleDb.reschedule_appointment "A001" sampleSlot2).1 =
      some { sampleAppt with datetime := sampleSlot2, status := "rescheduled" }
    ∧ dictFind (sampleDb.reschedule_appointment "A001" sampleSlot2).2.appointments
        "A002" = dictFind sampleDb.appointments "A002"
    ∧ sampleDb.reschedule_appointment "Z9" sampleSlot2 = (none, sampleDb) := by
  refine ⟨?_, ?_, ?_⟩
  · exact ((C10_reschedule_frame_effect sampleDb "A001" sampleSlot2).1 sampleAppt
      (by decide)).1
  · exact ((C10_reschedule_frame_effect sampleDb "A001" sampleSlot2).1 sampleAppt
      (by decide)).2.2.2.2.2.2.2.1 "A002" (by decide)
  · exact (C10_reschedule_frame_effect sampleDb "Z9" sampleSlot2).2 (by decide)

theorem slotsJoin_isSome (ts : List String) (h : ts ≠ []) :
    ∃ s, slotsJoin ts = some s := by
  match ts with
  | [] => exact absurd rfl h
  | [t] => exact ⟨t, rfl⟩
  | a :: b :: rest =>
      unfold slotsJoin
      rw [if_pos (by simp)]
      exact ⟨_, rfl⟩

/-- C3 counterexample: (i) with an empty availability result, the input
"no" in phase initial moves the phase to rescheduling but the call raises
IndexError instead of returning a reply; (ii) an input containing the
reschedule keyword "reschedule" together with a confirm keyword goes to
confirming, not rescheduling, even with slots available. -/
theorem C3_counterexample :
    (process_user_response ⟨emptyDb, none, "initial", [], none⟩ sampleNow "no").2 =
      .error "IndexError: list index out of range"
    ∧ (process_user_response ⟨emptyDb, none, "initial", [], none⟩ sampleNow
        "no").1.conversation_state = "rescheduling"
    ∧ emptyDb.get_available_slots sampleNow (sampleNow.addDays 7) = []
    ∧ (process_user_response ⟨sampleDb, none, "initial", [], none⟩ sampleNow
        "yes, i need to reschedule").1.conversation_state = "confirming"
    ∧ pyIn "reschedule" "yes, i need to reschedule" = true
    ∧ sampleDb.get_available_slots sampleNow (sampleNow.addDays 7) ≠ [] := by
  refine ⟨by decide, by decide, by decide, by decide, by decide, by decide⟩

/-- C3 (amended): in phase initial, on an input that contains a reschedule
keyword and no confirm keyword, and with a nonempty availability result
over the next 7 days, the phase moves to rescheduling, the full result is
stored as the proposed times, and the reply is returned without error,
offering the descriptions of the first up-to-3 slots in lookup order;
when the stored slot list is ascending the offered prefix is ascending
(earliest first). -/
theorem C3_amended_reschedule_offer (cm : ConversationManager)
    (now : DateTime) (text : String)
    (h0 : cm.conversation_state = "initial")
    (h1 : containsAny text.pyLower confirmWords = false)
    (h2 : containsAny text.pyLower rescheduleWords = true)
    (h3 : cm.db.get_available_slots now (now.addDays 7) ≠ []) :
    (process_user_response cm now text).1.conversation_state = "rescheduling"
    ∧ (process_user_response cm now text).1.proposed_times =
        cm.db.get_available_slots now (now.addDays 7)
    ∧ (∃ r : Reply, (process_user_response cm now text).2 = .ok r
        ∧ r.intent = "reschedule"
        ∧ r.available_slots =
            some (((cm.db.get_available_slots now (now.addDays 7)).take 3).map slotText))
    ∧ (List.Pairwise (fun a b => DateTime.leB a b = true) cm.db.available_slots →
        List.Pairwise (fun a b => DateTime.leB a b = true)
          ((cm.db.get_available_slots now (now.addDays 7)).take 3)) := by
  have hne : ((cm.db.get_available_slots now (now.addDays 7)).take 3).map slotText
      ≠ [] := by
    simp only [ne_eq, List.map_eq_nil_iff, List.take_eq_nil_iff]
    push_neg
    exact ⟨by omega, h3⟩
  obtain ⟨s, hs⟩ := slotsJoin_isSome _ hne
  unfold process_user_response
  dsimp only
  rw [h0]
  simp only [h1, h2, hs]
  refine ⟨rfl, rfl, ⟨_, rfl, rfl, rfl⟩, fun hp => ?_⟩
  exact List.Pairwise.sublist
    ((List.take_sublist 3 _).trans (List.filter_sublist _)) hp

/-- C3 witness: the amended statement evaluated with one available slot
three days out and the input "no". -/
theorem C3_amended_reschedule_offer_witness :
    (process_user_response ⟨sampleDb, none, "initial", [], none⟩ sampleNow
        "no").1.conversation_state = "rescheduling"
    ∧ (process_user_response ⟨sampleDb, none, "initial", [], none⟩ sampleNow
        "no").1.proposed_times =
        sampleDb.get_available_slots sampleNow (sampleNow.addDays 7)
    ∧ (∃ r : Reply,
        (process_user_response ⟨sampleDb, none, "initial", [], none⟩ sampleNow
          "no").2 = .ok r
        ∧ r.intent = "reschedule"
        ∧ r.available_slots =
            some (((sampleDb.get_available_slots sampleNow
              (sampleNow.addDays 7)).take 3).map slotText))
    ∧ (List.Pairwise (fun a b => DateTime.leB a b = true) sampleDb.available_slots →
        List.Pairwise (fun a b => DateTime.leB a b = true)
          ((sampleDb.get_available_slots sampleNow (sampleNow.addDays 7)).take 3)) :=
  C3_amended_reschedule_offer ⟨sampleDb, none, "initial", [], none⟩ sampleNow "no"
    rfl (by decide) (by decide) (by decide)

theorem findSlotMatchAux_eq_of (text : String) :
    ∀ (slots : List DateTime) (base i : Nat) (sel : DateTime),
      slots[i]? = some sel → slotMatches sel text = true →
      (∀ (j : Nat) (s' : DateTime), j < i → slots[j]? = some s' →
        slotMatches s' text = false) →
      findSlotMatchAux text base slots = some (base + i) := by
  intro slots
  induction slots with
  | nil => intro base i sel hget; simp at hget
  | cons s rest ih =>
      intro base i sel hget hm hmin
      match i with
      | 0 =>
          have hs : s = sel := by simpa using hget
          unfold findSlotMatchAux
          rw [hs, hm]
          simp
      | i + 1 =>
          have hs : slotMatches s text = false := by
            have := hmin 0 s (Nat.succ_pos i) (by simp)
            exact this
          unfold findSlotMatchAux
          rw [hs]
          simp only [Bool.false_eq_true, if_false]
          have hmin' : ∀ (j : Nat) (s' : DateTime), j < i → rest[j]? = some s' →
              slotMatches s' text = false := by
            intro j s' hj hg
            exact hmin (j + 1) s' (by omega) (by simpa using hg)
          have := ih (base + 1) i sel (by simpa using hget) hm hmin'
          rw [this]
          congr 1
          omega

theorem findSlotMatchAux_eq_none (text : String) :
    ∀ (slots : List DateTime) (base : Nat),
      (∀ (j : Nat) (s' : DateTime), slots[j]? = some s' →
        slotMatches s' text = false) →
      findSlotMatchAux text base slots = none := by
  intro slots
  induction slots with
  | nil => intro base h; rfl
  | cons s rest ih =>
      intro base h
      have hs : slotMatches s text = false := h 0 s (by simp)
      unfold findSlotMatchAux
      rw [hs]
      simp only [Bool.false_eq_true, if_false]
      exact ih (base + 1) fun j s' hg => h (j + 1) s' (by simpa using hg)

/-- C4: in phase rescheduling, (i) an ordinal mention selects its index
(any date/time substrings notwithstanding) whenever that index exists
among the proposed slots, completing the conversation; (ii) absent an
ordinal, the lowest index among the first 3 proposed slots whose
weekday/date/time/hour-am-pm text occurs in the input is selected and the
conversation completes; (iii) when neither happens — even if some slot
beyond the first 3 would match — the manager is left entirely unchanged
and the reply intent is unclear_time. -/
theorem C4_slot_selection (cm : ConversationManager) (now : DateTime)
    (text : String) (h0 : cm.conversation_state = "rescheduling") :
    (∀ (i : Nat) (sel : DateTime), ordinalIndex text.pyLower = some i →
        cm.proposed_times[i]? = some sel →
        (process_user_response cm now text).1.conversation_state = "completed"
        ∧ (process_user_response cm now text).1.selected_time = some sel
        ∧ ∃ r : Reply, (process_user_response cm now text).2 = .ok r
            ∧ r.intent = "reschedule_confirmed"
            ∧ r.new_datetime = some sel.isoformat)
    ∧ (∀ (i : Nat) (sel : DateTime), ordinalIndex text.pyLower = none →
        (cm.proposed_times.take 3)[i]? = some sel →
        slotMatches sel text.pyLower = true →
        (∀ (j : Nat) (s' : DateTime), j < i →
            (cm.proposed_times.take 3)[j]? = some s' →
            slotMatches s' text.pyLower = false) →
        (process_user_response cm now text).1.conversation_state = "completed"
        ∧ (process_user_response cm now text).1.selected_time = some sel
        ∧ ∃ r : Reply, (process_user_response cm now text).2 = .ok r
            ∧ r.intent = "reschedule_confirmed"
            ∧ r.new_datetime = some sel.isoformat)
    ∧ (ordinalIndex text.pyLower = none →
        (∀ (j : Nat) (s' : DateTime), (cm.proposed_times.take 3)[j]? = some s' →
            slotMatches s' text.pyLower = false) →
        process_user_response cm now text = (cm, .ok unclearTimeReply)) := by
  have hbranch : ∀ (i : Nat) (sel : DateTime), cm.proposed_times[i]? = some sel →
      (match ordinalIndex text.pyLower with
        | some j => some j
        | none => findSlotMatch (cm.proposed_times.take 3) text.pyLower) = some i →
      (process_user_response cm now text).1.conversation_state = "completed"
      ∧ (process_user_response cm now text).1.selected_time = some sel
      ∧ ∃ r : Reply, (process_user_response cm now text).2 = .ok r
          ∧ r.intent = "reschedule_confirmed"
          ∧ r.new_datetime = some sel.isoformat := by
    intro i sel hget hsel
    unfold process_user_response
    dsimp only
    rw [h0]
    rcases hca : cm.current_appointment with _ | appt
    · simp [hsel, hget, hca]
    · rcases hfa : dictFind appt "appointment_id" with _ | aid <;>
        simp [hsel, hget, hca, hfa]
  refine ⟨fun i sel hord hget => ?_, fun i sel hord hget hm hmin => ?_, fun hord hall => ?_⟩
  · exact hbranch i sel hget (by rw [hord])
  · have hi3 : i < 3 := by
      have := List.getElem?_eq_some.mp hget
      obtain ⟨hlt, _⟩ := this
      have := List.length_take 3 cm.proposed_times
      omega
    have hget' : cm.proposed_times[i]? = some sel := by
      rw [← List.getElem?_take_of_lt hi3]
      exact hget
    have hfind : findSlotMatch (cm.proposed_times.take 3) text.pyLower = some i := by
      have := findSlotMatchAux_eq_of text.pyLower (cm.proposed_times.take 3) 0 i sel
        hget hm hmin
      simpa [findSlotMatch] using this
    exact hbranch i sel hget' (by rw [hord, hfind])
  · have hfind : findSlotMatch (cm.proposed_times.take 3) text.pyLower = none := by
      have := findSlotMatchAux_eq_none text.pyLower (cm.proposed_times.take 3) 0 hall
      simpa [findSlotMatch] using this
    unfold process_user_response
    dsimp only
    rw [h0]
    simp [hord, hfind, unclearTimeReply]

/-- C4 witness: the three cases evaluated concretely — "the second one"
selects index 1; "2 pm" (matching only the second slot's hour) selects
index 1 with no ordinal present; "hmm" matches nothing and leaves the
manager untouched. -/
theorem C4_slot_selection_witness :
    (process_user_response cmResched sampleNow "the second one").1.conversation_state
      = "completed"
    ∧ (process_user_response cmResched sampleNow "the second one").1.selected_time
      = some sampleSlot2
    ∧ (process_user_response cmResched sampleNow "2 pm works").1.selected_time
      = some sampleSlot2
    ∧ process_user_response cmResched sampleNow "hmm" =
        (cmResched, .ok unclearTimeReply) := by
  refine ⟨?_, ?_, ?_, ?_⟩
  · exact ((C4_slot_selection cmResched sampleNow "the second one" rfl).1 1
      sampleSlot2 (by decide) (by decide)).1
  · exact ((C4_slot_selection cmResched sampleNow "the second one" rfl).1 1
      sampleSlot2 (by decide) (by decide)).2.1
  · refine ((C4_slot_selection cmResched sampleNow "2 pm works" rfl).2.1 1
      sampleSlot2 (by decide) (by decide) (by decide) ?_).2.1
    intro j s' hj hg
    have hj0 : j = 0 := by omega
    subst hj0
    simp [cmResched, sampleSlot1] at hg
    rw [← hg]
    decide
  · refine (C4_slot_selection cmResched sampleNow "hmm" rfl).2.2 (by decide) ?_
    intro j s' hg
    rcases j with _ | _ | n
    · simp [cmResched, sampleSlot1] at hg
      rw [← hg]
      decide
    · simp [cmResched, sampleSlot2] at hg
      rw [← hg]
      decide
    · simp [cmResched] at hg

/-- C7 counterexample: at 09:00 on 2026-10-12 the input "3 am" assembles
03:00 of the same day, which is in the past, yet the returned datetime
keeps the current year — the year is not rolled forward. -/
theorem C7_counterexample :
    extract_date_time sampleNow "3 am" = some ⟨2026, 10, 12, 3, 0, 0, 0⟩
    ∧ DateTime.ltB ⟨2026, 10, 12, 3, 0, 0, 0⟩ sampleNow = true
    ∧ (⟨2026, 10, 12, 3, 0, 0, 0⟩ : DateTime).year = sampleNow.year := by
  refine ⟨by decide, by decide, rfl⟩

/-- C7 (amended): `extract_date_time` returns nothing when neither the
month-day pattern nor the hour-am/pm pattern is found; when the assembled
datetime is valid, the year is rolled forward by one exactly when the
datetime is in the past AND its (month, day) is strictly before today's
(month, day) — a past time on the current or a later calendar day of the
current year is returned unrolled. -/
theorem C7_amended_extract_date_time (now : DateTime) (text : String) :
    (dateSearch text.pyLower.toList = none →
      timeSearch text.pyLower.toList = none →
      extract_date_time now text = none)
    ∧ (∀ (mo d h mi : Nat) (dt : DateTime),
        extractComponents now text.pyLower.toList = some (mo, d, h, mi) →
        datetimeNew now.year mo d h mi = some dt →
        (dt.ltB now = true →
            (mo < now.month ∨ (mo = now.month ∧ d < now.day)) →
            extract_date_time now text = datetimeNew (now.year + 1) mo d h mi)
        ∧ (dt.ltB now = true →
            ¬(mo < now.month ∨ (mo = now.month ∧ d < now.day)) →
            extract_date_time now text = some dt)
        ∧ (dt.ltB now = false → extract_date_time now text = some dt)) := by
  constructor
  · intro hd ht
    unfold extract_date_time extractComponents
    rw [hd, ht]
    simp
  · intro mo d h mi dt hcomp hdt
    have hgoal : extract_date_time now text = assembleRoll now mo d h mi := by
      unfold extract_date_time
      rw [hcomp]
    refine ⟨fun hlt hcond => ?_, fun hlt hcond => ?_, fun hlt => ?_⟩
    · rw [hgoal]
      unfold assembleRoll
      rw [hdt]
      dsimp only
      rw [if_pos hlt]
      have hcondb : (decide (mo < now.month)
          || (mo == now.month && decide (d < now.day))) = true := by
        simp only [Bool.or_eq_true, Bool.and_eq_true, decide_eq_true_eq, beq_iff_eq]
        exact hcond
      rw [if_pos hcondb]
    · rw [hgoal]
      unfold assembleRoll
      rw [hdt]
      dsimp only
      rw [if_pos hlt]
      have hcondb : ¬((decide (mo < now.month)
          || (mo == now.month && decide (d < now.day))) = true) := by
        simp only [Bool.or_eq_true, Bool.and_eq_true, decide_eq_true_eq, beq_iff_eq]
        exact hcond
      rw [if_neg hcondb]
    · rw [hgoal]
      unfold assembleRoll
      rw [hdt]
      dsimp only
      rw [if_neg (by simp [hlt])]

/-- C7 witness: "nothing here" yields no result; "jan 5" (past month) is
rolled into next year; "3 am" (same calendar day, earlier time) stays in
the current year. -/
theorem C7_amended_extract_date_time_witness :
    extract_date_time sampleNow "nothing here" = none
    ∧ extract_date_time sampleNow "jan 5" = datetimeNew 2027 1 5 9 0
    ∧ extract_date_time sampleNow "3 am" = some ⟨2026, 10, 12, 3, 0, 0, 0⟩ := by
  refine ⟨?_, ?_, ?_⟩
  · exact (C7_amended_extract_date_time sampleNow "nothing here").1
      (by decide) (by decide)
  · exact (((C7_amended_extract_date_time sampleNow "jan 5").2 1 5 9 0
      ⟨2026, 1, 5, 9, 0, 0, 0⟩ (by decide) (by decide)).1 (by decide)
      (by left; decide))
  · exact (((C7_amended_extract_date_time sampleNow "3 am").2 10 12 3 0
      ⟨2026, 10, 12, 3, 0, 0, 0⟩ (by decide) (by decide)).2.1 (by decide)
      (by decide))

/-- C5 counterexample: a run whose five poll attempts all time out — no
session-confirmation event arrives within the attempt budget — returns
normally (ok), exactly as a confirmed setup does, instead of failing. -/
theorem C5_counterexample :
    initialize_session (List.replicate 5 RecvEvent.timeout) = .ok ()
    ∧ RecvEvent.sessionCreated ∉ List.replicate 5 RecvEvent.timeout := by
  exact ⟨rfl, by decide⟩

theorem sessionPollLoop_ok_of_no_events (n : Nat) :
    ∀ events : List RecvEvent,
      RecvEvent.sessionCreated ∉ events →
      (∀ m, RecvEvent.errorEvent m ∉ events) →
      sessionPollLoop n events = .ok () := by
  induction n with
  | zero => intro events _ _; rfl
  | succ n ih =>
      intro events hc he
      match events with
      | [] => rfl
      | e :: rest =>
          match e with
          | .timeout =>
              exact ih rest (fun h => hc (List.mem_cons_of_mem _ h))
                (fun m h => he m (List.mem_cons_of_mem _ h))
          | .sessionCreated => exact absurd (List.mem_cons_self _ _) hc
          | .errorEvent m => exact absurd (List.mem_cons_self _ _) (he m)
          | .otherEvent =>
              exact ih rest (fun h => hc (List.mem_cons_of_mem _ h))
                (fun m h => he m (List.mem_cons_of_mem _ h))

theorem sessionPollLoop_error_of_error_event :
    ∀ (pre : List RecvEvent) (n : Nat) (msg : String) (rest : List RecvEvent),
      (∀ e ∈ pre, e = RecvEvent.timeout ∨ e = RecvEvent.otherEvent) →
      pre.length < n →
      sessionPollLoop n (pre ++ RecvEvent.errorEvent msg :: rest) =
        .error ("OpenAI error: " ++ msg) := by
  intro pre
  induction pre with
  | nil =>
      intro n msg rest _ hn
      match n, hn with
      | m + 1, _ => rfl
  | cons e pre' ih =>
      intro n msg rest hall hn
      match n, hn with
      | m + 1, hn =>
          have he := hall e (List.mem_cons_self _ _)
          have hall' : ∀ x ∈ pre', x = RecvEvent.timeout ∨ x = RecvEvent.otherEvent :=
            fun x hx => hall x (List.mem_cons_of_mem _ hx)
          have hm : pre'.length < m := by
            simp only [List.length_cons] at hn
            omega
          rcases he with he | he <;>
            (subst he
             show sessionPollLoop m (pre' ++ RecvEvent.errorEvent msg :: rest) = _
             exact ih m msg rest hall' hm)

/-- C5 (amended): when no session-created and no error event arrives
within the poll, `initialize_session` completes normally (returns ok, only
logging the failure) — it does not fail the setup; an explicit error event
reached within the 5-attempt budget does raise, failing the setup. -/
theorem C5_amended_session_setup :
    (∀ events : List RecvEvent,
        RecvEvent.sessionCreated ∉ events →
        (∀ m, RecvEvent.errorEvent m ∉ events) →
        initialize_session events = .ok ())
    ∧ (∀ (pre : List RecvEvent) (msg : String) (rest : List RecvEvent),
        (∀ e ∈ pre, e = RecvEvent.timeout ∨ e = RecvEvent.otherEvent) →
        pre.length < 5 →
        initialize_session (pre ++ RecvEvent.errorEvent msg :: rest) =
          .error ("OpenAI error: " ++ msg)) :=
  ⟨fun events hc he => sessionPollLoop_ok_of_no_events 5 events hc he,
   fun pre msg rest hall hn => sessionPollLoop_error_of_error_event pre 5 msg rest hall hn⟩

/-- C5 witness: a timeout followed by an unrelated event completes setup
normally; a timeout followed by an error event raises. -/
theorem C5_amended_session_setup_witness :
    initialize_session [RecvEvent.timeout, RecvEvent.otherEvent] = .ok ()
    ∧ initialize_session [RecvEvent.timeout, RecvEvent.errorEvent "boom"] =
        .error ("OpenAI error: " ++ "boom") := by
  constructor
  · exact C5_amended_session_setup.1 [RecvEvent.timeout, RecvEvent.otherEvent]
      (by decide) (by intro m h; simp at h)
  · exact C5_amended_session_setup.2 [RecvEvent.timeout] "boom" []
      (by intro e he; simp at he; subst he; left; rfl) (by decide)

/-- C6 counterexample: a malformed frame followed by a media frame — the
media frame after it is never forwarded (the loop does not continue with
the next frame), while the same media frame alone is forwarded. -/
theorem C6_counterexample :
    (receive_from_twilio ⟨[], none⟩ true
      [TwilioFrame.malformed, TwilioFrame.media "x"]).2.1 = []
    ∧ (receive_from_twilio ⟨[], none⟩ true
      [TwilioFrame.malformed, TwilioFrame.media "x"]).2.2 = true
    ∧ (receive_from_twilio ⟨[], none⟩ true [TwilioFrame.media "x"]).2.1 = ["x"] := by
  exact ⟨rfl, rfl, rfl⟩

/-- C6 (amended): a malformed frame (unparseable JSON / missing field) in
either direction is caught at loop level and ends that direction's loop —
no later frame of that direction is processed, and the exception is not
re-raised; only an undecodable audio payload in the model → telephony
direction is skipped per-frame with the loop continuing; and each
direction's loop is a function of its own stream alone, so a malformed
frame never aborts the opposing direction's loop. -/
theorem C6_amended_relay_errors :
    (∀ (st : HandlerState) (op : Bool) (frames : List TwilioFrame),
        receive_from_twilio st op (TwilioFrame.malformed :: frames) = (st, [], true))
    ∧ (∀ (st : HandlerState) (msgs : List OpenAIMsg),
        send_to_twilio st (OpenAIMsg.malformed :: msgs) = (st, [], true))
    ∧ (∀ (st : HandlerState) (msgs : List OpenAIMsg),
        send_to_twilio st (OpenAIMsg.audioDelta (.error ()) :: msgs) =
          send_to_twilio st msgs)
    ∧ (∀ (st : HandlerState) (op : Bool) (frames : List TwilioFrame)
        (msgs : List OpenAIMsg),
        process_audio_streams st op frames msgs =
          (receive_from_twilio st op frames, send_to_twilio st msgs)) :=
  ⟨fun _ _ _ => rfl, fun _ _ => rfl, fun _ _ => rfl, fun _ _ _ _ => rfl⟩

/-- C8 counterexample: the fragments "resched" and "ule" accumulate to
assistant text containing the keyword "reschedule", yet no outcome is set —
detection runs over each fragment alone, not the accumulated text. -/
theorem C8_counterexample :
    (runSignals ⟨[], none⟩ [CallSignal.assistantDelta "resched",
        CallSignal.assistantDelta "ule"]).call_outcome = none
    ∧ (runSignals ⟨[], none⟩ [CallSignal.assistantDelta "resched",
        CallSignal.assistantDelta "ule"]).conversation_transcript =
        [("assistant", "resched"), ("assistant", "ule")]
    ∧ containsAny ("resched" ++ "ule").pyLower reschedulePhrases = true := by
  exact ⟨rfl, rfl, by decide⟩

theorem stepSignal_call_outcome (st : HandlerState) (e : CallSignal) :
    (stepSignal st e).call_outcome =
      match impliedOutcome e with
      | some v => some v
      | none => st.call_outcome := by
  cases e with
  | assistantDelta c =>
      by_cases hc : (c == "") = true
      · simp [stepSignal, processContentDelta, impliedOutcome, hc]
      · by_cases h1 : containsAny c.pyLower confirmPhrases = true
        · simp [stepSignal, processContentDelta, impliedOutcome, hc, h1]
        · by_cases h2 : containsAny c.pyLower reschedulePhrases = true
          · simp [stepSignal, processContentDelta, impliedOutcome, hc, h1, h2]
          · simp [stepSignal, processContentDelta, impliedOutcome, hc, h1, h2]
  | userMark t =>
      by_cases hc : (t == "") = true
      · simp [stepSignal, processUserTranscript, impliedOutcome, hc]
      · by_cases h1 : containsAny t.pyLower confirmWords = true
        · simp [stepSignal, processUserTranscript, impliedOutcome, hc, h1]
        · by_cases h2 : containsAny t.pyLower rescheduleWords = true
          · simp [stepSignal, processUserTranscript, impliedOutcome, hc, h1, h2]
          · simp [stepSignal, processUserTranscript, impliedOutcome, hc, h1, h2]

/-- C8 (amended): outcome detection runs over each incremental fragment on
its own (the value an event writes is a function of that event's text
only), and across a sequence of events the stored `call_outcome` equals
the value implied by the last matching event — last-match-wins between
confirmed and rescheduled; with no matching event it is unchanged. -/
theorem C8_amended_last_match_wins (st : HandlerState) (sigs : List CallSignal) :
    (sigs.filterMap impliedOutcome = [] →
      (runSignals st sigs).call_outcome = st.call_outcome)
    ∧ (∀ v, (sigs.filterMap impliedOutcome).getLast? = some v →
      (runSignals st sigs).call_outcome = some v) := by
  induction sigs using List.reverseRecOn with
  | nil => exact ⟨fun _ => rfl, fun v hv => by simp at hv⟩
  | append_singleton l e ih =>
      have hrun : runSignals st (l ++ [e]) = stepSignal (runSignals st l) e := by
        unfold runSignals
        rw [List.foldl_append]
        rfl
      cases himp : impliedOutcome e with
      | none =>
          constructor
          · intro hfm
            rw [List.filterMap_append] at hfm
            have hl : l.filterMap impliedOutcome = [] :=
              (List.append_eq_nil.mp hfm).1
            rw [hrun, stepSignal_call_outcome, himp]
            exact ih.1 hl
          · intro v hv
            rw [List.filterMap_append] at hv
            simp only [List.filterMap_cons, himp, List.filterMap_nil,
              List.append_nil] at hv
            rw [hrun, stepSignal_call_outcome, himp]
            exact ih.2 v hv
      | some v0 =>
          constructor
          · intro hfm
            rw [List.filterMap_append] at hfm
            simp [List.filterMap_cons, himp] at hfm
          · intro v hv
            rw [List.filterMap_append] at hv
            simp only [List.filterMap_cons, himp, List.filterMap_nil] at hv
            rw [List.getLast?_concat] at hv
            rw [hrun, stepSignal_call_outcome, himp]
            exact hv

/-- C8 witness: assistant fragment "please confirm" writes confirmed, the
user utterance "no, reschedule please" overwrites with rescheduled, a
final non-matching fragment leaves it — the stored outcome is the last
match. -/
theorem C8_amended_last_match_wins_witness :
    (runSignals ⟨[], none⟩ [CallSignal.assistantDelta "please confirm",
        CallSignal.userMark "no, reschedule please",
        CallSignal.assistantDelta "hello"]).call_outcome = some "rescheduled" :=
  (C8_amended_last_match_wins ⟨[], none⟩
    [CallSignal.assistantDelta "please confirm",
     CallSignal.userMark "no, reschedule please",
     CallSignal.assistantDelta "hello"]).2 "rescheduled" (by decide)

/-- C9: with no appointment context attached (`current_appointment` is
None), the confirming → completed transition raises AttributeError
(`None.get`) instead of replying with generic phrasing — while the same
call with an empty context dict does produce the generic-phrasing reply,
showing the `.get` defaults were meant to cover missing context. -/
theorem C9_missing_context_bug :
    (process_user_response ⟨emptyDb, none, "confirming", [], none⟩ sampleNow
      "ok bye").2 =
      .error "AttributeError: \x27NoneType\x27 object has no attribute \x27get\x27"
    ∧ (process_user_response ⟨emptyDb, none, "confirming", [], none⟩ sampleNow
      "ok bye").1.conversation_state = "completed"
    ∧ (process_user_response ⟨emptyDb, some [], "confirming", [], none⟩ sampleNow
      "ok bye").2 =
      .ok ⟨"complete",
           "Thank you for confirming your appointment. We look forward to seeing you on your scheduled date at your scheduled time. Have a great day!",
           none, none⟩ := by
  exact ⟨rfl, rfl, rfl⟩
